import Mathlib

/-!
Shallow embedding of `backend/main.py` (DeepSeek OCR relay backend) and
verification of its specified behaviour.

Modelling conventions:
* PIL images are modelled by their observable attributes: `width`, `height`,
  colour `mode`, plus an abstract pixel-content token `data`.  The external
  encoders (`Image.save` + `base64.b64encode`) are deterministic functions of
  the image and the encoder parameters; they are modelled by an injective
  serialization of those inputs (real encoders are deterministic, and images
  of different dimensions/modes always encode to different bytes).
* Python float arithmetic on small integer inputs (`dpi / 200`,
  `max_width / image.width`, `int(x * ratio)`) is modelled by exact rational
  arithmetic with `pyInt` (truncation toward zero, as Python `int()`).
* The Ollama endpoint is an external collaborator; each call either returns a
  parsed JSON object, an HTTP error status with a body, or a transport-level
  failure.  A request handler receives the endpoint's behaviour as a function
  of the request payload.
* Uploaded files are modelled by their filename, declared content type, and
  the results of the two external decoders applied to their bytes:
  `PIL.Image.open` (field `decoded`) and `pdf2image.convert_from_bytes`
  (field `pdfPages`, a function of the requested dpi).  A `.error` value
  models the decoder raising an exception with the given message.
-/

namespace OcrSpec

/-- PIL colour modes that can occur for decoded uploads.  `LA` and `PA` are
PIL's grayscale-with-alpha and palette-with-alpha modes; `P` is palette. -/
inductive PILMode where
  | L
  | LA
  | P
  | PA
  | RGB
  | RGBA
  | CMYK
deriving DecidableEq, Repr

/-- Printable name of a PIL mode (used by the encoder serialization). -/
def modeName : PILMode → String
  | .L => "L"
  | .LA => "LA"
  | .P => "P"
  | .PA => "PA"
  | .RGB => "RGB"
  | .RGBA => "RGBA"
  | .CMYK => "CMYK"

/-- Whether a PIL mode carries an alpha or palette channel (PIL semantics:
`RGBA`, `LA`, `PA` have alpha; `P`, `PA` are palette-based).  This is the
vocabulary of the specification, used to judge the colour-normalization
claim against the code. -/
def hasAlphaOrPalette : PILMode → Bool
  | .RGBA => true
  | .LA => true
  | .PA => true
  | .P => true
  | _ => false

/-- An in-memory PIL raster image: dimensions, colour mode, and an abstract
token standing for the pixel contents. -/
structure PILImage where
  width : Nat
  height : Nat
  mode : PILMode
  data : Nat
deriving DecidableEq, Repr

/-- Model of `PIL.Image.convert`: changes the colour mode (the pixel contents
are a deterministic function of the source image, kept as the same token). -/
def PILImage.convert (image : PILImage) (m : PILMode) : PILImage :=
  { image with mode := m }

/-- Model of `PIL.Image.resize` (LANCZOS resampling): changes the dimensions
(the resampled pixels are a deterministic function of the source image and
the target size; the token is kept). -/
def PILImage.resize (image : PILImage) (w h : Nat) : PILImage :=
  { image with width := w, height := h }

/-- Python `int()` applied to a rational value: truncation toward zero. -/
def pyInt (q : ℚ) : Int := if q < 0 then -⌊-q⌋ else ⌊q⌋

/-- Python `str.startswith`: prefix test on the character sequence. -/
def strStartsWith (s p : String) : Bool := s.data.take p.data.length == p.data

/-- ASCII upper-casing of one character (Python `str.upper` on the inputs
appearing in this program, which are plain ASCII format names). -/
def upperChar (c : Char) : Char :=
  if 'a' ≤ c ∧ c ≤ 'z' then Char.ofNat (c.toNat - 32) else c

/-- Python `str.upper` on ASCII strings. -/
def pyUpper (s : String) : String := ⟨s.data.map upperChar⟩

/-- Model of `base64.b64encode(...).decode("utf-8")`: an injective re-encoding
of the byte string. -/
def b64encode (s : String) : String := "b64:" ++ s

/-- Model of `image.save(buffer, format=..., [quality=...,] optimize=True)`
followed by `buffer.getvalue()`: the encoded bytes are a deterministic
function of the image and the encoder parameters, modelled as an injective
serialization.  `quality = none` models a save call without the quality
keyword (the PNG path). -/
def pilSave (image : PILImage) (format : String) (quality : Option Nat) : String :=
  "bytes:" ++ format ++ ":" ++ toString image.width ++ "x" ++ toString image.height
    ++ ":" ++ modeName image.mode ++ ":px" ++ toString image.data ++ ":q"
    ++ (match quality with
        | some q => toString q
        | none => "none")

/-- `image_to_base64(image, format="PNG", quality=85)` from `backend/main.py`
(lines 29-36): JPEG saves pass the quality, other formats do not.  Callers in
the source always use the default `quality=85`, passed explicitly here. -/
def image_to_base64 (image : PILImage) (format : String) (quality : Nat) : String :=
  if pyUpper format == "JPEG" then b64encode (pilSave image format (some quality))
  else b64encode (pilSave image format none)

/-- The recurring `if image.mode in ("RGBA", "P"): image = image.convert("RGB")`
normalization step (lines 47-49, 112-114, 166-167, 205-206, 222-223). -/
def convertIfNeeded (image : PILImage) : PILImage :=
  if image.mode = .RGBA ∨ image.mode = .P then image.convert .RGB else image

/-- The resize step of `image_to_base64_for_preview` (lines 42-45): images
wider than `max_width` are downscaled to that width, the height scaled by the
same factor and truncated with `int()`. -/
def previewResize (image : PILImage) (max_width : Nat) : PILImage :=
  if max_width < image.width then
    let shrink : ℚ := (max_width : ℚ) / (image.width : ℚ)
    let new_height := (pyInt ((image.height : ℚ) * shrink)).toNat
    image.resize max_width new_height
  else image

/-- `image_to_base64_for_preview(image, max_width=1200)` from `backend/main.py`
(lines 39-53): resize if too wide, convert RGBA/P to RGB, save as JPEG with
quality 75.  The only caller uses the default `max_width=1200`, passed
explicitly here. -/
def image_to_base64_for_preview (image : PILImage) (max_width : Nat) : String :=
  let image := previewResize image max_width
  let image := convertIfNeeded image
  b64encode (pilSave image "JPEG" (some 75))

/-- `int(image.width * scale_factor)` with `scale_factor = dpi / 200`
(lines 119-121), for one dimension. -/
def scaledDim (v dpi : Nat) : Nat :=
  (pyInt ((v : ℚ) * ((dpi : ℚ) / (200 : ℚ)))).toNat

/-- The DPI scaling step of `ocr_image` (lines 116-130): when `dpi != 200`,
scale both dimensions by `dpi / 200`; if either scaled dimension exceeds
4096, rescale both by `min(4096 / new_width, 4096 / new_height)`; then
resize.  When `dpi == 200` the image is used unchanged. -/
def dpiScale (image : PILImage) (dpi : Nat) : PILImage :=
  if dpi ≠ 200 then
    let new_width := scaledDim image.width dpi
    let new_height := scaledDim image.height dpi
    if 4096 < new_width ∨ 4096 < new_height then
      let shrink : ℚ := min ((4096 : ℚ) / (new_width : ℚ)) ((4096 : ℚ) / (new_height : ℚ))
      image.resize (pyInt ((new_width : ℚ) * shrink)).toNat (pyInt ((new_height : ℚ) * shrink)).toNat
    else
      image.resize new_width new_height
  else image

/-- One request issued to the Ollama `/api/generate` endpoint.  The payload's
fixed fields (`model="deepseek-ocr"`, `stream=False`) are constants of the
source and are not repeated here. -/
structure InferenceCall where
  image_base64 : String
  prompt : String
deriving DecidableEq, Repr

/-- Outcome of one call to the external OCR endpoint: a 2xx response with a
parsed JSON object (string-valued fields), a non-2xx HTTP status with its
response body text, or a transport-level failure with its description. -/
inductive UpstreamResult where
  | ok (fields : List (String × String))
  | httpError (status : Nat) (text : String)
  | transportError (desc : String)
deriving DecidableEq, Repr

/-- `fastapi.HTTPException`, as raised by the handlers. -/
structure HTTPException where
  status_code : Nat
  detail : String
deriving DecidableEq, Repr

/-- Python `dict.get(key, default)` on a string-valued JSON object. -/
def dictGet (d : List (String × String)) (key dflt : String) : String :=
  match d.find? (fun p => p.1 == key) with
  | some p => p.2
  | none => dflt

/-- The behaviour of the external Ollama endpoint, as a function of the
request payload. -/
abbrev Ollama := InferenceCall → UpstreamResult

/-- `run_ocr_on_image(image_base64, prompt)` from `backend/main.py`
(lines 56-75): posts to the Ollama endpoint; returns `result.get("response", "")`
on success; raises `HTTPException(upstream status, "Ollama error: " + body)`
on a non-2xx upstream status; raises
`HTTPException(503, "Cannot connect to Ollama: " + description)` on a
transport failure. -/
def run_ocr_on_image (ollama : Ollama) (image_base64 prompt : String) :
    Except HTTPException String :=
  match ollama ⟨image_base64, prompt⟩ with
  | .ok fields => .ok (dictGet fields "response" "")
  | .httpError status text => .error ⟨status, "Ollama error: " ++ text⟩
  | .transportError desc => .error ⟨503, "Cannot connect to Ollama: " ++ desc⟩

/-- An exception escaping a handler body: either a raised `HTTPException` or
a generic Python exception carrying its message. -/
inductive PyErr where
  | http (e : HTTPException)
  | exc (msg : String)
deriving DecidableEq, Repr

/-- Python `str(e)` on a caught exception, as recorded by the batch handler.
Starlette's `HTTPException.__str__` renders as `"{status_code}: {detail}"`;
a generic exception renders as its message. -/
def pyStr : PyErr → String
  | .http e => toString e.status_code ++ ": " ++ e.detail
  | .exc m => m

/-- An uploaded file: filename, declared content type (Python `None` is
`none`, and the empty string is falsy like `None`), and the outcomes of the
two external decoders on its raw bytes: `PIL.Image.open` (`decoded`) and
`pdf2image.convert_from_bytes` at a given dpi (`pdfPages`).  An `.error`
models the decoder raising an exception with that message. -/
structure UploadFile where
  filename : String
  content_type : Option String
  decoded : Except String PILImage
  pdfPages : Nat → Except String (List PILImage)

/-- The guard `file.content_type and file.content_type.startswith("image/")`
(lines 106, 218). -/
def isImageCT : Option String → Bool
  | none => false
  | some s => strStartsWith s "image/"

/-- The guard `file.content_type == "application/pdf"` (lines 152, 199); in
`ocr_pdf` the source writes `not ct or ct != "application/pdf"`, which
accepts exactly the same content types. -/
def isPdfCT : Option String → Bool
  | none => false
  | some s => s == "application/pdf"

/-- JSON values returned by the handlers (all numbers occurring in the
responses are nonnegative integers). -/
inductive JVal where
  | s (v : String)
  | n (v : Nat)
  | b (v : Bool)
  | arr (v : List JVal)
  | obj (v : List (String × JVal))

/-- A JSON object, as an ordered field list (Python dict literals preserve
insertion order). -/
abbrev JObj := List (String × JVal)

/-- Field lookup in a JSON object. -/
def lookupField (o : JObj) (k : String) : Option JVal :=
  match o.find? (fun p => p.1 == k) with
  | some p => some p.2
  | none => none

/-- `POST /ocr/image` (`ocr_image`, lines 99-142).  Returns the handler's
outcome (response object, or the exception escaping the handler) together
with the list of inference calls issued. -/
def ocr_image (ollama : Ollama) (file : UploadFile) (prompt : String) (dpi : Nat) :
    Except PyErr JObj × List InferenceCall :=
  if isImageCT file.content_type then
    match file.decoded with
    | .error msg => (.error (.exc msg), [])
    | .ok opened =>
      let image := convertIfNeeded opened
      let image_for_ocr := dpiScale image dpi
      let image_base64 := image_to_base64 image_for_ocr "PNG" 85
      match run_ocr_on_image ollama image_base64 prompt with
      | .error e => (.error (.http e), [⟨image_base64, prompt⟩])
      | .ok text =>
        let preview_base64 := image_to_base64_for_preview image 1200
        (.ok [("filename", JVal.s file.filename), ("text", JVal.s text),
              ("image", JVal.s ("data:image/jpeg;base64," ++ preview_base64))],
         [⟨image_base64, prompt⟩])
  else
    (.error (.http ⟨400, "File must be an image"⟩), [])

/-- The page loop of `ocr_pdf` (lines 163-179): pages are processed strictly
in order; the first inference failure aborts the handler; `i` is the
0-based `enumerate` index. -/
def ocrPdfLoop (ollama : Ollama) (prompt : String) :
    List PILImage → Nat → Except HTTPException (List JVal)
  | [], _ => .ok []
  | image :: rest, i =>
    let image := convertIfNeeded image
    let image_base64 := image_to_base64 image "PNG" 85
    match run_ocr_on_image ollama image_base64 prompt with
    | .error e => .error e
    | .ok text =>
      let preview_base64 := image_to_base64_for_preview image 1200
      match ocrPdfLoop ollama prompt rest (i + 1) with
      | .error e => .error e
      | .ok tail =>
        .ok (JVal.obj [("page", JVal.n (i + 1)), ("text", JVal.s text),
              ("image", JVal.s ("data:image/jpeg;base64," ++ preview_base64))] :: tail)

/-- `POST /ocr/pdf` (`ocr_pdf`, lines 145-185): content-type guard, PDF
rasterization (failure becomes HTTP 400 with the decoder message), the page
loop, and the response object. -/
def ocr_pdf (ollama : Ollama) (file : UploadFile) (prompt : String) (dpi : Nat) :
    Except PyErr JObj :=
  if isPdfCT file.content_type then
    match file.pdfPages dpi with
    | .error msg => .error (.http ⟨400, "Failed to process PDF: " ++ msg⟩)
    | .ok images =>
      match ocrPdfLoop ollama prompt images 0 with
      | .error e => .error (.http e)
      | .ok pages =>
        .ok [("filename", JVal.s file.filename), ("total_pages", JVal.n images.length),
             ("pages", JVal.arr pages)]
  else .error (.http ⟨400, "File must be a PDF"⟩)

/-- The PDF page loop inside `ocr_batch` (lines 203-209): like the `/ocr/pdf`
loop but page records carry only `page` and `text` (no preview).  Also
returns the inference calls issued, including those made before a failure. -/
def batchPdfLoop (ollama : Ollama) (prompt : String) :
    List PILImage → Nat → Except HTTPException (List JVal) × List InferenceCall
  | [], _ => (.ok [], [])
  | image :: rest, i =>
    let image := convertIfNeeded image
    let image_base64 := image_to_base64 image "PNG" 85
    match run_ocr_on_image ollama image_base64 prompt with
    | .error e => (.error e, [⟨image_base64, prompt⟩])
    | .ok text =>
      match batchPdfLoop ollama prompt rest (i + 1) with
      | (.error e, calls) => (.error e, ⟨image_base64, prompt⟩ :: calls)
      | (.ok tail, calls) =>
        (.ok (JVal.obj [("page", JVal.n (i + 1)), ("text", JVal.s text)] :: tail),
         ⟨image_base64, prompt⟩ :: calls)

/-- The `try` body of the per-file branch of `ocr_batch` (lines 198-240):
dispatch on declared content type; PDF branch (rasterize, page loop, record
with `total_pages`), image branch (decode, normalize, one inference call,
record), and the unsupported-type record.  The batch image branch does not
apply any DPI rescaling.  Returns the branch outcome together with the
inference calls issued. -/
def batchFile (ollama : Ollama) (file : UploadFile) (prompt : String) (dpi : Nat) :
    Except PyErr JObj × List InferenceCall :=
  if isPdfCT file.content_type then
    match file.pdfPages dpi with
    | .error msg => (.error (.exc msg), [])
    | .ok images =>
      match batchPdfLoop ollama prompt images 0 with
      | (.error e, calls) => (.error (.http e), calls)
      | (.ok pages, calls) =>
        (.ok [("filename", JVal.s file.filename), ("type", JVal.s "pdf"),
              ("total_pages", JVal.n images.length), ("pages", JVal.arr pages),
              ("success", JVal.b true)], calls)
  else if isImageCT file.content_type then
    match file.decoded with
    | .error msg => (.error (.exc msg), [])
    | .ok opened =>
      let image := convertIfNeeded opened
      let image_base64 := image_to_base64 image "PNG" 85
      match run_ocr_on_image ollama image_base64 prompt with
      | .error e => (.error (.http e), [⟨image_base64, prompt⟩])
      | .ok text =>
        (.ok [("filename", JVal.s file.filename), ("type", JVal.s "image"),
              ("text", JVal.s text), ("success", JVal.b true)],
         [⟨image_base64, prompt⟩])
  else
    (.ok [("filename", JVal.s file.filename), ("type", JVal.s "unknown"),
          ("success", JVal.b false), ("error", JVal.s "Unsupported file type")], [])

/-- The record appended to `results` for one batch file: the `try` body's
record on success, or the `except Exception` record
`{"filename": ..., "success": False, "error": str(e)}` (lines 241-246). -/
def batchRecord (ollama : Ollama) (prompt : String) (dpi : Nat) (file : UploadFile) : JVal :=
  match (batchFile ollama file prompt dpi).1 with
  | .ok r => .obj r
  | .error e =>
    .obj [("filename", JVal.s file.filename), ("success", JVal.b false),
          ("error", JVal.s (pyStr e))]

/-- The `for file in files` loop of `ocr_batch` (lines 197-246): one record
per file, in input order, with the per-file inference calls concatenated in
order. -/
def batchLoop (ollama : Ollama) (prompt : String) (dpi : Nat) :
    List UploadFile → List JVal × List InferenceCall
  | [] => ([], [])
  | file :: rest =>
    let record := batchRecord ollama prompt dpi file
    let (tail, tcalls) := batchLoop ollama prompt dpi rest
    (record :: tail, (batchFile ollama file prompt dpi).2 ++ tcalls)

/-- `POST /ocr/batch` (`ocr_batch`, lines 188-248): every per-file exception
is caught inside the loop, so the handler always returns
`{"results": [...]}` (HTTP 200). -/
def ocr_batch (ollama : Ollama) (files : List UploadFile) (prompt : String) (dpi : Nat) :
    JObj :=
  [("results", JVal.arr (batchLoop ollama prompt dpi files).1)]

/-! ### Concrete fixtures used by witnesses and counterexamples -/

/-- An endpoint behaviour that always answers 2xx with a fixed text. -/
def ollamaOk : Ollama := fun _ => .ok [("response", "recognized text")]

/-- A small RGB image. -/
def rgbSmall : PILImage := ⟨100, 50, .RGB, 7⟩

/-- A well-formed image upload decoding to `rgbSmall`. -/
def imgFile : UploadFile :=
  ⟨"photo.png", some "image/png", .ok rgbSmall, fun _ => .error "not a pdf"⟩

/-- A grayscale-with-alpha image (PIL decodes a gray+alpha PNG to mode `LA`). -/
def laImg : PILImage := ⟨8, 8, .LA, 3⟩

/-- An image upload decoding to the `LA`-mode image. -/
def laFile : UploadFile :=
  ⟨"gray.png", some "image/png", .ok laImg, fun _ => .error "not a pdf"⟩

/-- An upload with an unsupported declared content type. -/
def txtFile : UploadFile :=
  ⟨"notes.txt", some "text/plain", .error "cannot identify image file",
   fun _ => .error "not a pdf"⟩

/-- A PDF upload whose rasterization raises. -/
def badPdfFile : UploadFile :=
  ⟨"broken.pdf", some "application/pdf", .error "cannot identify image file",
   fun _ => .error "Unable to get page count."⟩

/-- A PDF upload rasterizing to two pages (the second palette-mode). -/
def pdfTwoPages : UploadFile :=
  ⟨"doc.pdf", some "application/pdf", .error "cannot identify image file",
   fun _ => .ok [⟨100, 50, .RGB, 11⟩, ⟨100, 50, .P, 12⟩]⟩

/-! ### Auxiliary lemmas -/

lemma pyInt_nonneg (q : ℚ) (h : 0 ≤ q) : pyInt q = ⌊q⌋ := by
  simp [pyInt, not_lt.mpr h]

lemma pyInt_mul_div (a b c : ℕ) :
    (pyInt ((a : ℚ) * ((b : ℚ) / (c : ℚ)))).toNat = a * b / c := by
  have hq : ((a : ℚ) * ((b : ℚ) / (c : ℚ))) = (((a * b : ℕ) : ℤ) : ℚ) / ((c : ℕ) : ℚ) := by
    push_cast
    ring
  have h0 : 0 ≤ (a : ℚ) * ((b : ℚ) / (c : ℚ)) := by positivity
  rw [pyInt_nonneg _ h0, hq, Rat.floor_intCast_div_natCast, ← Int.natCast_div, Int.toNat_natCast]

lemma scaledDim_eq (v dpi : ℕ) : scaledDim v dpi = v * dpi / 200 := by
  simpa [scaledDim] using pyInt_mul_div v dpi 200

lemma convertIfNeeded_width (image : PILImage) :
    (convertIfNeeded image).width = image.width := by
  unfold convertIfNeeded PILImage.convert
  split <;> rfl

lemma convertIfNeeded_height (image : PILImage) :
    (convertIfNeeded image).height = image.height := by
  unfold convertIfNeeded PILImage.convert
  split <;> rfl

lemma image_not_pdf {ct : Option String} (h : isImageCT ct = true) : isPdfCT ct = false := by
  cases ct with
  | none => rfl
  | some s =>
    simp only [isImageCT] at h
    simp only [isPdfCT]
    cases hb : s == "application/pdf" with
    | false => rfl
    | true =>
      have hs : s = "application/pdf" := eq_of_beq hb
      subst hs
      exact absurd h (by decide)

lemma batchLoop_fst (ollama : Ollama) (prompt : String) (dpi : Nat) :
    ∀ files : List UploadFile,
      (batchLoop ollama prompt dpi files).1 = files.map (batchRecord ollama prompt dpi)
  | [] => rfl
  | f :: rest => by
    simp [batchLoop, batchLoop_fst ollama prompt dpi rest]

lemma ocrPdfLoop_ok (ollama : Ollama) (prompt : String) (images : List PILImage) :
    ∀ (i : Nat) (pages : List JVal), ocrPdfLoop ollama prompt images i = .ok pages →
      pages.length = images.length ∧
      ∀ j, j < images.length →
        ∃ t pv, pages[j]? = some (JVal.obj [("page", JVal.n (i + j + 1)), ("text", JVal.s t),
          ("image", JVal.s pv)]) := by
  induction images with
  | nil =>
    intro i pages h
    simp only [ocrPdfLoop] at h
    injection h with h
    subst h
    simp
  | cons image rest ih =>
    intro i pages h
    simp only [ocrPdfLoop] at h
    cases hr : run_ocr_on_image ollama (image_to_base64 (convertIfNeeded image) "PNG" 85) prompt with
    | error e =>
      rw [hr] at h
      simp at h
    | ok text =>
      rw [hr] at h
      cases hrec : ocrPdfLoop ollama prompt rest (i + 1) with
      | error e =>
        rw [hrec] at h
        simp at h
      | ok tail =>
        rw [hrec] at h
        simp only [] at h
        injection h with h
        subst h
        obtain ⟨hlen, hidx⟩ := ih (i + 1) tail hrec
        refine ⟨by simp [hlen], ?_⟩
        intro j hj
        cases j with
        | zero =>
          exact ⟨text, "data:image/jpeg;base64," ++
            image_to_base64_for_preview (convertIfNeeded image) 1200, by simp⟩
        | succ k =>
          obtain ⟨t, pv, ht⟩ := hidx k (by simpa using hj)
          refine ⟨t, pv, ?_⟩
          rw [List.getElem?_cons_succ]
          have he : i + (k + 1) + 1 = i + 1 + k + 1 := by omega
          rw [he]
          exact ht

lemma batchPdfLoop_pages (ollama : Ollama) (prompt : String) (images : List PILImage) :
    ∀ (i : Nat) (pages : List JVal) (calls : List InferenceCall),
      batchPdfLoop ollama prompt images i = (.ok pages, calls) →
      ∀ q ∈ pages, ∃ pn t, q = JVal.obj [("page", JVal.n pn), ("text", JVal.s t)] := by
  induction images with
  | nil =>
    intro i pages calls h
    simp only [batchPdfLoop] at h
    injection h with h1 h2
    injection h1 with h1
    subst h1
    simp
  | cons image rest ih =>
    intro i pages calls h
    simp only [batchPdfLoop] at h
    cases hr : run_ocr_on_image ollama (image_to_base64 (convertIfNeeded image) "PNG" 85) prompt with
    | error e =>
      rw [hr] at h
      simp at h
    | ok text =>
      rw [hr] at h
      rcases hrec : batchPdfLoop ollama prompt rest (i + 1) with ⟨res, rcalls⟩
      rw [hrec] at h
      cases res with
      | error e =>
        simp at h
      | ok tail =>
        simp only [] at h
        injection h with h1 h2
        injection h1 with h1
        subst h1
        intro q hq
        rcases List.mem_cons.mp hq with hq | hq
        · exact ⟨i + 1, text, hq⟩
        · exact ih (i + 1) tail rcalls hrec q hq

lemma ocr_image_calls (ollama : Ollama) (file : UploadFile) (prompt : String) (dpi : Nat)
    (img : PILImage) (hct : isImageCT file.content_type = true) (hdec : file.decoded = .ok img) :
    (ocr_image ollama file prompt dpi).2
      = [⟨image_to_base64 (dpiScale (convertIfNeeded img) dpi) "PNG" 85, prompt⟩] := by
  simp only [ocr_image, hct, if_true, hdec]
  cases hr : run_ocr_on_image ollama
      (image_to_base64 (dpiScale (convertIfNeeded img) dpi) "PNG" 85) prompt with
  | error e => rfl
  | ok text => rfl

lemma batchFile_image_calls (ollama : Ollama) (file : UploadFile) (prompt : String) (dpi : Nat)
    (img : PILImage) (hct : isImageCT file.content_type = true) (hdec : file.decoded = .ok img) :
    (batchFile ollama file prompt dpi).2
      = [⟨image_to_base64 (convertIfNeeded img) "PNG" 85, prompt⟩] := by
  simp only [batchFile, image_not_pdf hct, hct, if_true, Bool.false_eq_true, if_false, hdec]
  cases hr : run_ocr_on_image ollama (image_to_base64 (convertIfNeeded img) "PNG" 85) prompt with
  | error e => rfl
  | ok text => rfl

lemma batchFile_ok_shape (ollama : Ollama) (file : UploadFile) (prompt : String) (dpi : Nat)
    (r : JObj) (h : (batchFile ollama file prompt dpi).1 = .ok r) :
    (∃ pages n, r = [("filename", JVal.s file.filename), ("type", JVal.s "pdf"),
        ("total_pages", JVal.n n), ("pages", JVal.arr pages), ("success", JVal.b true)]
      ∧ ∀ q ∈ pages, ∃ pn t, q = JVal.obj [("page", JVal.n pn), ("text", JVal.s t)])
    ∨ (∃ t, r = [("filename", JVal.s file.filename), ("type", JVal.s "image"),
        ("text", JVal.s t), ("success", JVal.b true)])
    ∨ r = [("filename", JVal.s file.filename), ("type", JVal.s "unknown"),
        ("success", JVal.b false), ("error", JVal.s "Unsupported file type")] := by
  simp only [batchFile] at h
  cases hpdf : isPdfCT file.content_type with
  | true =>
    simp only [hpdf, if_true] at h
    cases hp : file.pdfPages dpi with
    | error msg =>
      simp [hp] at h
    | ok images =>
      simp only [hp] at h
      rcases hloop : batchPdfLoop ollama prompt images 0 with ⟨res, calls⟩
      simp only [hloop] at h
      cases res with
      | error e => simp at h
      | ok pages =>
        simp only [Except.ok.injEq] at h
        refine Or.inl ⟨pages, images.length, h.symm, ?_⟩
        exact batchPdfLoop_pages ollama prompt images 0 pages calls hloop
  | false =>
    simp only [hpdf, Bool.false_eq_true, if_false] at h
    cases himg : isImageCT file.content_type with
    | true =>
      simp only [himg, if_true] at h
      cases hd : file.decoded with
      | error msg =>
        simp [hd] at h
      | ok opened =>
        simp only [hd] at h
        cases hr : run_ocr_on_image ollama
            (image_to_base64 (convertIfNeeded opened) "PNG" 85) prompt with
        | error e =>
          simp [hr] at h
        | ok text =>
          simp only [hr, Except.ok.injEq] at h
          exact Or.inr (Or.inl ⟨text, h.symm⟩)
    | false =>
      simp only [himg, Bool.false_eq_true, if_false, Except.ok.injEq] at h
      exact Or.inr (Or.inr h.symm)

lemma dpiScale_rgbSmall400 : dpiScale rgbSmall 400 = ⟨200, 100, .RGB, 7⟩ := by
  have hw : scaledDim 100 400 = 200 := by rw [scaledDim_eq]
  have hh : scaledDim 50 400 = 100 := by rw [scaledDim_eq]
  have h1 : rgbSmall = ⟨100, 50, .RGB, 7⟩ := rfl
  simp only [dpiScale, h1, hw, hh]
  norm_num [PILImage.resize]

/-! ### Claim theorems -/

/-- C1: `/ocr/batch` always returns an HTTP 200 response of the form
`{"results": [...]}` with exactly one record per input file, in input order,
each record depending only on its own file; a file whose processing raises an
exception yields a `success:false` record carrying `str(e)` as its error
message without affecting the other files; and a file whose declared content
type is neither a PDF nor an image type yields the fixed
`success:false`/type `unknown`/"Unsupported file type" record with no
inference call issued for it. -/
theorem c1_batch_isolation (ollama : Ollama) (prompt : String) (dpi : Nat)
    (files : List UploadFile) :
    ocr_batch ollama files prompt dpi
      = [("results", JVal.arr (files.map (batchRecord ollama prompt dpi)))]
  ∧ (files.map (batchRecord ollama prompt dpi)).length = files.length
  ∧ (∀ f e, (batchFile ollama f prompt dpi).1 = .error e →
      batchRecord ollama prompt dpi f
        = JVal.obj [("filename", JVal.s f.filename), ("success", JVal.b false),
            ("error", JVal.s (pyStr e))])
  ∧ (∀ f, isPdfCT f.content_type = false → isImageCT f.content_type = false →
      batchRecord ollama prompt dpi f
        = JVal.obj [("filename", JVal.s f.filename), ("type", JVal.s "unknown"),
            ("success", JVal.b false), ("error", JVal.s "Unsupported file type")]
      ∧ (batchFile ollama f prompt dpi).2 = []) := by
  refine ⟨?_, List.length_map files _, ?_, ?_⟩
  · simp [ocr_batch, batchLoop_fst]
  · intro f e h
    simp [batchRecord, h]
  · intro f h1 h2
    constructor
    · simp [batchRecord, batchFile, h1, h2]
    · simp [batchFile, h1, h2]

/-- Witness for C1: a batch containing an unsupported text file produces the
fixed unknown-type failure record with no inference call, and a PDF whose
rasterization raises produces a failure record carrying the decoder
message. -/
theorem c1_witness :
    (batchRecord ollamaOk "p" 200 txtFile
      = JVal.obj [("filename", JVal.s "notes.txt"), ("type", JVal.s "unknown"),
          ("success", JVal.b false), ("error", JVal.s "Unsupported file type")]
      ∧ (batchFile ollamaOk txtFile "p" 200).2 = [])
    ∧ batchRecord ollamaOk "p" 200 badPdfFile
      = JVal.obj [("filename", JVal.s "broken.pdf"), ("success", JVal.b false),
          ("error", JVal.s "Unable to get page count.")] :=
  ⟨(c1_batch_isolation ollamaOk "p" 200 [txtFile]).2.2.2 txtFile rfl rfl,
   (c1_batch_isolation ollamaOk "p" 200 [badPdfFile]).2.2.1 badPdfFile
     (.exc "Unable to get page count.") rfl⟩

/-- C2: when `/ocr/pdf` succeeds on a PDF that rasterized to N pages, the
response carries `total_pages = N` and exactly N page records whose `page`
values are 1..N in source-page order. -/
theorem c2_pdf_page_numbering (ollama : Ollama) (file : UploadFile) (prompt : String)
    (dpi : Nat) (images : List PILImage) (resp : JObj)
    (hct : isPdfCT file.content_type = true)
    (hpages : file.pdfPages dpi = .ok images)
    (hok : ocr_pdf ollama file prompt dpi = .ok resp) :
    ∃ pages : List JVal,
      resp = [("filename", JVal.s file.filename), ("total_pages", JVal.n images.length),
              ("pages", JVal.arr pages)]
      ∧ pages.length = images.length
      ∧ ∀ j, j < images.length →
          ∃ t pv, pages[j]? = some (JVal.obj [("page", JVal.n (j + 1)), ("text", JVal.s t),
            ("image", JVal.s pv)]) := by
  simp only [ocr_pdf, hct, if_true, hpages] at hok
  cases hloop : ocrPdfLoop ollama prompt images 0 with
  | error e =>
    simp [hloop] at hok
  | ok pages =>
    simp only [hloop, Except.ok.injEq] at hok
    obtain ⟨hlen, hidx⟩ := ocrPdfLoop_ok ollama prompt images 0 pages hloop
    refine ⟨pages, hok.symm, hlen, ?_⟩
    intro j hj
    obtain ⟨t, pv, ht⟩ := hidx j hj
    exact ⟨t, pv, by simpa using ht⟩

/-- Witness for C2: a two-page PDF processed with an always-successful
endpoint yields `total_pages = 2` and page values 1, 2 in order. -/
theorem c2_witness :
    ∃ pages : List JVal,
      ([("filename", JVal.s "doc.pdf"), ("total_pages", JVal.n 2),
        ("pages", JVal.arr
          [JVal.obj [("page", JVal.n 1), ("text", JVal.s "recognized text"),
            ("image", JVal.s "data:image/jpeg;base64,b64:bytes:JPEG:100x50:RGB:px11:q75")],
           JVal.obj [("page", JVal.n 2), ("text", JVal.s "recognized text"),
            ("image", JVal.s "data:image/jpeg;base64,b64:bytes:JPEG:100x50:RGB:px12:q75")]])]
          : JObj)
        = [("filename", JVal.s "doc.pdf"), ("total_pages", JVal.n 2),
           ("pages", JVal.arr pages)]
      ∧ pages.length = 2
      ∧ ∀ j, j < 2 →
          ∃ t pv, pages[j]? = some (JVal.obj [("page", JVal.n (j + 1)), ("text", JVal.s t),
            ("image", JVal.s pv)]) :=
  c2_pdf_page_numbering ollamaOk pdfTwoPages "p" 200
    [⟨100, 50, .RGB, 11⟩, ⟨100, 50, .P, 12⟩]
    [("filename", JVal.s "doc.pdf"), ("total_pages", JVal.n 2),
     ("pages", JVal.arr
       [JVal.obj [("page", JVal.n 1), ("text", JVal.s "recognized text"),
         ("image", JVal.s "data:image/jpeg;base64,b64:bytes:JPEG:100x50:RGB:px11:q75")],
        JVal.obj [("page", JVal.n 2), ("text", JVal.s "recognized text"),
         ("image", JVal.s "data:image/jpeg;base64,b64:bytes:JPEG:100x50:RGB:px12:q75")]])]
    rfl rfl rfl

/-- C3: `run_ocr_on_image` maps a non-2xx upstream status to an
`HTTPException` carrying exactly the upstream status code and the upstream
body (prefixed "Ollama error: "), maps a transport-level failure to a
distinct `HTTPException` with status 503 and the transport description
(prefixed "Cannot connect to Ollama: "), and the two detail messages can
never coincide, so the two failure kinds are never conflated. -/
theorem c3_inference_error_mapping (ollama : Ollama) (image_base64 prompt : String) :
    (∀ status text, ollama ⟨image_base64, prompt⟩ = .httpError status text →
      run_ocr_on_image ollama image_base64 prompt
        = .error ⟨status, "Ollama error: " ++ text⟩)
  ∧ (∀ desc, ollama ⟨image_base64, prompt⟩ = .transportError desc →
      run_ocr_on_image ollama image_base64 prompt
        = .error ⟨503, "Cannot connect to Ollama: " ++ desc⟩)
  ∧ (∀ text desc, ("Ollama error: " ++ text : String)
        ≠ "Cannot connect to Ollama: " ++ desc) := by
  refine ⟨?_, ?_, ?_⟩
  · intro status text h
    simp [run_ocr_on_image, h]
  · intro desc h
    simp [run_ocr_on_image, h]
  · intro t d h
    have h2 := congrArg (fun s => s.data.head?) h
    simp [String.data_append] at h2

/-- Witness for C3: an endpoint answering HTTP 500 with body "boom" makes
the call fail with status 500 and that body; an unreachable endpoint makes
it fail with status 503 and the transport description. -/
theorem c3_witness :
    run_ocr_on_image (fun _ => .httpError 500 "boom") "img" "p"
      = .error ⟨500, "Ollama error: " ++ "boom"⟩
    ∧ run_ocr_on_image (fun _ => .transportError "connection refused") "img" "p"
      = .error ⟨503, "Cannot connect to Ollama: " ++ "connection refused"⟩ :=
  ⟨(c3_inference_error_mapping (fun _ => .httpError 500 "boom") "img" "p").1
      500 "boom" rfl,
   (c3_inference_error_mapping (fun _ => .transportError "connection refused") "img" "p").2.1
      "connection refused" rfl⟩

lemma pyInt_mul_min_le (v : ℕ) (q : ℚ) (hv : 1 ≤ v) (hq0 : 0 ≤ q)
    (hq : q ≤ (4096 : ℚ) / (v : ℚ)) :
    (pyInt ((v : ℚ) * q)).toNat ≤ 4096 := by
  have hv0 : (0 : ℚ) < v := by
    have : (0 : ℕ) < v := hv
    exact_mod_cast this
  have hle : (v : ℚ) * q ≤ 4096 := by
    calc (v : ℚ) * q ≤ (v : ℚ) * ((4096 : ℚ) / (v : ℚ)) :=
          mul_le_mul_of_nonneg_left hq (le_of_lt hv0)
    _ = 4096 := by field_simp
  rw [pyInt_nonneg _ (mul_nonneg (le_of_lt hv0) hq0), Int.toNat_le]
  calc ⌊(v : ℚ) * q⌋ ≤ ⌊(4096 : ℚ)⌋ := Int.floor_le_floor hle
  _ = 4096 := by norm_num

/-- Counterexample for C4 as stated: the claim requires that whenever either
scaled dimension would exceed 4096 both are scaled down so that neither
exceeds 4096, but at dpi=200 (scale factor 1) the code skips the whole
scaling block, so a 5000-pixel-wide image goes to inference 5000 pixels
wide. -/
theorem c4_counterexample :
    dpiScale ⟨5000, 100, .RGB, 0⟩ 200 = ⟨5000, 100, .RGB, 0⟩
    ∧ 4096 < (dpiScale ⟨5000, 100, .RGB, 0⟩ 200).width := by
  constructor
  · rfl
  · decide

/-- C4 (amended): the inference copy is scaled by `dpi / 200` in both
dimensions: dpi=200 leaves the image untouched (even when a dimension
already exceeds 4096), dpi=400 doubles both dimensions when no clamping
triggers, and — only when `dpi ≠ 200` — if either scaled dimension exceeds
4096 (both scaled dimensions being at least 1, otherwise the code divides by
zero) both dimensions are further multiplied by one common positive factor
less than 1 such that neither result exceeds 4096. -/
theorem c4_dpi_scaling (image : PILImage) (dpi : Nat) :
    (dpi = 200 → dpiScale image dpi = image)
  ∧ (dpi = 400 → 2 * image.width ≤ 4096 → 2 * image.height ≤ 4096 →
      (dpiScale image dpi).width = 2 * image.width
      ∧ (dpiScale image dpi).height = 2 * image.height)
  ∧ (dpi ≠ 200 →
      1 ≤ scaledDim image.width dpi → 1 ≤ scaledDim image.height dpi →
      (4096 < scaledDim image.width dpi ∨ 4096 < scaledDim image.height dpi) →
      ∃ r : ℚ, 0 < r ∧ r < 1
        ∧ (dpiScale image dpi).width = (pyInt ((scaledDim image.width dpi : ℚ) * r)).toNat
        ∧ (dpiScale image dpi).height = (pyInt ((scaledDim image.height dpi : ℚ) * r)).toNat
        ∧ (dpiScale image dpi).width ≤ 4096
        ∧ (dpiScale image dpi).height ≤ 4096) := by
  refine ⟨?_, ?_, ?_⟩
  · intro h
    subst h
    simp [dpiScale]
  · intro h hw hh
    subst h
    have hw4 : scaledDim image.width 400 = 2 * image.width := by
      rw [scaledDim_eq]
      omega
    have hh4 : scaledDim image.height 400 = 2 * image.height := by
      rw [scaledDim_eq]
      omega
    have hno : ¬ (4096 < scaledDim image.width 400 ∨ 4096 < scaledDim image.height 400) := by
      rw [hw4, hh4]
      omega
    simp only [dpiScale, if_pos (by norm_num : (400 : ℕ) ≠ 200), if_neg hno]
    exact ⟨hw4, hh4⟩
  · intro hne h1w h1h hbig
    set nw := scaledDim image.width dpi with hnw
    set nh := scaledDim image.height dpi with hnh
    have hnw0 : (0 : ℚ) < (nw : ℚ) := by
      have : (0 : ℕ) < nw := h1w
      exact_mod_cast this
    have hnh0 : (0 : ℚ) < (nh : ℚ) := by
      have : (0 : ℕ) < nh := h1h
      exact_mod_cast this
    have hd : dpiScale image dpi
        = image.resize
            (pyInt ((nw : ℚ) * min ((4096 : ℚ) / (nw : ℚ)) ((4096 : ℚ) / (nh : ℚ)))).toNat
            (pyInt ((nh : ℚ) * min ((4096 : ℚ) / (nw : ℚ)) ((4096 : ℚ) / (nh : ℚ)))).toNat := by
      simp only [dpiScale, ← hnw, ← hnh]
      rw [if_pos hne, if_pos hbig]
    refine ⟨min ((4096 : ℚ) / (nw : ℚ)) ((4096 : ℚ) / (nh : ℚ)), ?_, ?_, ?_, ?_, ?_, ?_⟩
    · exact lt_min (div_pos (by norm_num) hnw0) (div_pos (by norm_num) hnh0)
    · rcases hbig with hb | hb
      · refine lt_of_le_of_lt (min_le_left _ _) ?_
        rw [div_lt_one hnw0]
        exact_mod_cast hb
      · refine lt_of_le_of_lt (min_le_right _ _) ?_
        rw [div_lt_one hnh0]
        exact_mod_cast hb
    · rw [hd]
      rfl
    · rw [hd]
      rfl
    · rw [hd]
      exact pyInt_mul_min_le nw _ h1w
        (le_min (le_of_lt (div_pos (by norm_num) hnw0)) (le_of_lt (div_pos (by norm_num) hnh0)))
        (min_le_left _ _)
    · rw [hd]
      exact pyInt_mul_min_le nh _ h1h
        (le_min (le_of_lt (div_pos (by norm_num) hnw0)) (le_of_lt (div_pos (by norm_num) hnh0)))
        (min_le_right _ _)

/-- Witness for C4 (amended): dpi=200 leaves a 100x50 image untouched;
dpi=400 turns it into 200x100; and a 3000x50 image at dpi=400 (scaled
dimensions 6000x100) is clamped to both dimensions at most 4096 by one
common factor. -/
theorem c4_witness :
    dpiScale ⟨100, 50, .RGB, 7⟩ 200 = ⟨100, 50, .RGB, 7⟩
    ∧ ((dpiScale ⟨100, 50, .RGB, 7⟩ 400).width = 2 * 100
        ∧ (dpiScale ⟨100, 50, .RGB, 7⟩ 400).height = 2 * 50)
    ∧ (∃ r : ℚ, 0 < r ∧ r < 1
        ∧ (dpiScale ⟨3000, 50, .RGB, 7⟩ 400).width
            = (pyInt ((scaledDim 3000 400 : ℚ) * r)).toNat
        ∧ (dpiScale ⟨3000, 50, .RGB, 7⟩ 400).height
            = (pyInt ((scaledDim 50 400 : ℚ) * r)).toNat
        ∧ (dpiScale ⟨3000, 50, .RGB, 7⟩ 400).width ≤ 4096
        ∧ (dpiScale ⟨3000, 50, .RGB, 7⟩ 400).height ≤ 4096) :=
  ⟨(c4_dpi_scaling ⟨100, 50, .RGB, 7⟩ 200).1 rfl,
   (c4_dpi_scaling ⟨100, 50, .RGB, 7⟩ 400).2.1 rfl (by norm_num) (by norm_num),
   (c4_dpi_scaling ⟨3000, 50, .RGB, 7⟩ 400).2.2 (by norm_num)
     (by rw [scaledDim_eq]; norm_num) (by rw [scaledDim_eq]; norm_num)
     (Or.inl (by rw [scaledDim_eq]; norm_num))⟩

/-- Counterexample for C5 as stated: for the same file, prompt and dpi=400,
the single-image endpoint sends the DPI-rescaled (200x100) encoding while
the batch endpoint sends the original-size (100x50) encoding — the batch
image branch performs no DPI rescaling, so the payloads differ. -/
theorem c5_counterexample :
    (ocr_image ollamaOk imgFile "p" 400).2 ≠ (batchFile ollamaOk imgFile "p" 400).2 := by
  rw [ocr_image_calls ollamaOk imgFile "p" 400 rgbSmall rfl rfl,
      batchFile_image_calls ollamaOk imgFile "p" 400 rgbSmall rfl rfl,
      show convertIfNeeded rgbSmall = rgbSmall from rfl, dpiScale_rgbSmall400]
  decide

/-- C5 (amended): for an image file the batch branch runs the same decode,
colour normalization and PNG encoding as `/ocr/image`, so at dpi=200 the
inference payloads of the two endpoints coincide; but the batch branch
never applies DPI rescaling — for every dpi it sends the encoding of the
un-rescaled image. -/
theorem c5_batch_image_payload (ollama : Ollama) (file : UploadFile) (prompt : String)
    (img : PILImage) (hct : isImageCT file.content_type = true)
    (hdec : file.decoded = .ok img) :
    (ocr_image ollama file prompt 200).2 = (batchFile ollama file prompt 200).2
    ∧ ∀ dpi, (batchFile ollama file prompt dpi).2
        = [⟨image_to_base64 (convertIfNeeded img) "PNG" 85, prompt⟩] := by
  constructor
  · rw [ocr_image_calls ollama file prompt 200 img hct hdec,
        batchFile_image_calls ollama file prompt 200 img hct hdec]
    simp [dpiScale]
  · intro dpi
    exact batchFile_image_calls ollama file prompt dpi img hct hdec

/-- Witness for C5 (amended): at dpi=200 both endpoints issue the same single
inference call on `imgFile`; at dpi=400 the batch endpoint still sends the
un-rescaled encoding. -/
theorem c5_witness :
    (ocr_image ollamaOk imgFile "p" 200).2 = (batchFile ollamaOk imgFile "p" 200).2
    ∧ (batchFile ollamaOk imgFile "p" 400).2
        = [⟨image_to_base64 (convertIfNeeded rgbSmall) "PNG" 85, "p"⟩] :=
  ⟨(c5_batch_image_payload ollamaOk imgFile "p" rgbSmall rfl rfl).1,
   (c5_batch_image_payload ollamaOk imgFile "p" rgbSmall rfl rfl).2 400⟩

/-- C6: the preview encoding operates on an image whose width never exceeds
1200: an input wider than 1200 is downscaled to width exactly 1200 with the
height scaled by the same 1200/width factor (truncated), and an input of
width at most 1200 keeps its dimensions. -/
theorem c6_preview_width_bound (image : PILImage) :
    image_to_base64_for_preview image 1200
      = b64encode (pilSave (convertIfNeeded (previewResize image 1200)) "JPEG" (some 75))
    ∧ (convertIfNeeded (previewResize image 1200)).width ≤ 1200
    ∧ (1200 < image.width →
        (previewResize image 1200).width = 1200
        ∧ (previewResize image 1200).height = image.height * 1200 / image.width)
    ∧ (image.width ≤ 1200 → previewResize image 1200 = image) := by
  refine ⟨rfl, ?_, ?_, ?_⟩
  · rw [convertIfNeeded_width]
    by_cases h : 1200 < image.width
    · simp [previewResize, h, PILImage.resize]
    · simp only [previewResize, if_neg h]
      omega
  · intro h
    refine ⟨by simp [previewResize, h, PILImage.resize], ?_⟩
    simp only [previewResize, if_pos h, PILImage.resize]
    simpa using pyInt_mul_div image.height 1200 image.width
  · intro h
    simp [previewResize, not_lt.mpr h]

/-- Witness for C6: a 2400x50 input is downscaled to 1200x25 for preview; an
800x60 input keeps its dimensions. -/
theorem c6_witness :
    ((previewResize ⟨2400, 50, .RGB, 1⟩ 1200).width = 1200
      ∧ (previewResize ⟨2400, 50, .RGB, 1⟩ 1200).height = 50 * 1200 / 2400)
    ∧ previewResize ⟨800, 60, .RGB, 1⟩ 1200 = ⟨800, 60, .RGB, 1⟩ :=
  ⟨(c6_preview_width_bound ⟨2400, 50, .RGB, 1⟩).2.2.1 (by norm_num),
   (c6_preview_width_bound ⟨800, 60, .RGB, 1⟩).2.2.2 (by norm_num)⟩

/-- C7: for every `/ocr/image` request the inference call carries the
encoding of the DPI-rescaled image, while the preview field of a successful
response is derived from the original (colour-normalized, pre-DPI-rescale)
image; hence the preview is the same for every requested dpi. -/
theorem c7_preview_from_original (ollama : Ollama) (file : UploadFile) (prompt : String)
    (img : PILImage) (hct : isImageCT file.content_type = true)
    (hdec : file.decoded = .ok img) :
    (∀ dpi, (ocr_image ollama file prompt dpi).2
      = [⟨image_to_base64 (dpiScale (convertIfNeeded img) dpi) "PNG" 85, prompt⟩])
    ∧ (∀ dpi resp, (ocr_image ollama file prompt dpi).1 = .ok resp →
        lookupField resp "image"
          = some (JVal.s ("data:image/jpeg;base64,"
              ++ image_to_base64_for_preview (convertIfNeeded img) 1200)))
    ∧ (∀ dpi dpi' resp resp',
        (ocr_image ollama file prompt dpi).1 = .ok resp →
        (ocr_image ollama file prompt dpi').1 = .ok resp' →
        lookupField resp "image" = lookupField resp' "image") := by
  have hmain : ∀ dpi resp, (ocr_image ollama file prompt dpi).1 = .ok resp →
      lookupField resp "image"
        = some (JVal.s ("data:image/jpeg;base64,"
            ++ image_to_base64_for_preview (convertIfNeeded img) 1200)) := by
    intro dpi resp h
    simp only [ocr_image, hct, if_true, hdec] at h
    cases hr : run_ocr_on_image ollama
        (image_to_base64 (dpiScale (convertIfNeeded img) dpi) "PNG" 85) prompt with
    | error e => simp [hr] at h
    | ok text =>
      simp only [hr, Except.ok.injEq] at h
      rw [← h]
      rfl
  exact ⟨fun dpi => ocr_image_calls ollama file prompt dpi img hct hdec, hmain,
    fun dpi dpi' resp resp' h h' => (hmain dpi resp h).trans (hmain dpi' resp' h').symm⟩

/-- Witness for C7: on `imgFile` at dpi=400 the inference call carries the
rescaled encoding, and the successful dpi=200 response's preview field is
the data URI of the preview of the original image. -/
theorem c7_witness :
    (ocr_image ollamaOk imgFile "p" 400).2
      = [⟨image_to_base64 (dpiScale (convertIfNeeded rgbSmall) 400) "PNG" 85, "p"⟩]
    ∧ lookupField [("filename", JVal.s "photo.png"), ("text", JVal.s "recognized text"),
        ("image", JVal.s ("data:image/jpeg;base64,"
          ++ image_to_base64_for_preview (convertIfNeeded rgbSmall) 1200))] "image"
      = some (JVal.s ("data:image/jpeg;base64,"
          ++ image_to_base64_for_preview (convertIfNeeded rgbSmall) 1200)) :=
  ⟨(c7_preview_from_original ollamaOk imgFile "p" rgbSmall rfl rfl).1 400,
   (c7_preview_from_original ollamaOk imgFile "p" rgbSmall rfl rfl).2.1 200
     [("filename", JVal.s "photo.png"), ("text", JVal.s "recognized text"),
      ("image", JVal.s ("data:image/jpeg;base64,"
        ++ image_to_base64_for_preview (convertIfNeeded rgbSmall) 1200))] rfl⟩

/-- Counterexample for C8 as stated: an image decoded in PIL mode `LA`
(grayscale with alpha — what PIL produces for a gray+alpha PNG) has an alpha
channel, but the pipeline's normalization only handles modes `RGBA` and `P`,
so the `LA` image reaches the PNG encoder of the inference payload still
carrying its alpha channel. -/
theorem c8_counterexample :
    hasAlphaOrPalette laImg.mode = true
    ∧ convertIfNeeded laImg = laImg
    ∧ (ocr_image ollamaOk laFile "p" 200).2 = [⟨image_to_base64 laImg "PNG" 85, "p"⟩] := by
  refine ⟨rfl, rfl, ?_⟩
  rw [ocr_image_calls ollamaOk laFile "p" 200 laImg rfl rfl,
      show convertIfNeeded laImg = laImg from rfl]
  simp [dpiScale]

/-- C8 (amended): the pipeline converts a decoded image to RGB before any
encoding exactly when its mode is `RGBA` or `P`; images in any other mode —
including the alpha-carrying modes `LA` and `PA` — are handed to the
encoders unchanged. -/
theorem c8_convert_modes (image : PILImage) :
    ((image.mode = .RGBA ∨ image.mode = .P) →
      (convertIfNeeded image).mode = .RGB
      ∧ hasAlphaOrPalette (convertIfNeeded image).mode = false)
    ∧ (image.mode ≠ .RGBA → image.mode ≠ .P → convertIfNeeded image = image) := by
  constructor
  · intro h
    simp [convertIfNeeded, h, PILImage.convert, hasAlphaOrPalette]
  · intro h1 h2
    simp [convertIfNeeded, h1, h2]

/-- Witness for C8 (amended): an RGBA image is converted to RGB (losing its
alpha/palette channel); an `L` image passes through unchanged. -/
theorem c8_witness :
    ((convertIfNeeded ⟨4, 4, .RGBA, 9⟩).mode = .RGB
      ∧ hasAlphaOrPalette (convertIfNeeded ⟨4, 4, .RGBA, 9⟩).mode = false)
    ∧ convertIfNeeded ⟨4, 4, .L, 9⟩ = ⟨4, 4, .L, 9⟩ :=
  ⟨(c8_convert_modes ⟨4, 4, .RGBA, 9⟩).1 (Or.inl rfl),
   (c8_convert_modes ⟨4, 4, .L, 9⟩).2 (by decide) (by decide)⟩

/-- Counterexample for C9 as stated: a batch file whose processing raised an
exception (here a PDF whose rasterization fails) produces a record with no
`type` field at all, so not every record carries a documentType drawn from
the set of image, pdf and unknown. -/
theorem c9_counterexample :
    batchRecord ollamaOk "p" 200 badPdfFile
      = JVal.obj [("filename", JVal.s "broken.pdf"), ("success", JVal.b false),
          ("error", JVal.s "Unable to get page count.")]
    ∧ lookupField [("filename", JVal.s "broken.pdf"), ("success", JVal.b false),
          ("error", JVal.s "Unable to get page count.")] "type" = none :=
  ⟨rfl, rfl⟩

/-- C9 (amended): every `/ocr/batch` record carries a filename and a success
flag, and an error message whenever the success flag is false; records
produced by the non-raising branches carry a documentType drawn from pdf,
image, unknown — but the records produced for files whose processing raised
an exception carry no documentType field at all. -/
theorem c9_record_shape (ollama : Ollama) (prompt : String) (dpi : Nat) (file : UploadFile) :
    ∃ o : JObj, batchRecord ollama prompt dpi file = JVal.obj o
      ∧ lookupField o "filename" = some (JVal.s file.filename)
      ∧ (∃ b, lookupField o "success" = some (JVal.b b)
          ∧ (b = false → ∃ m, lookupField o "error" = some (JVal.s m)))
      ∧ (∀ e, (batchFile ollama file prompt dpi).1 = .error e →
          lookupField o "type" = none)
      ∧ (∀ r, (batchFile ollama file prompt dpi).1 = .ok r →
          ∃ t, lookupField o "type" = some (JVal.s t)
            ∧ (t = "pdf" ∨ t = "image" ∨ t = "unknown")) := by
  cases hbf : (batchFile ollama file prompt dpi).1 with
  | error e =>
    exact ⟨[("filename", JVal.s file.filename), ("success", JVal.b false),
             ("error", JVal.s (pyStr e))], by simp [batchRecord, hbf], rfl,
            ⟨false, rfl, fun _ => ⟨pyStr e, rfl⟩⟩, fun _ _ => rfl,
            fun _ hr => Except.noConfusion hr⟩
  | ok r =>
    have hrec : batchRecord ollama prompt dpi file = JVal.obj r := by
      simp [batchRecord, hbf]
    rcases batchFile_ok_shape ollama file prompt dpi r hbf with
      ⟨pages, n, hshape, _⟩ | ⟨t, hshape⟩ | hshape
    · subst hshape
      exact ⟨_, hrec, rfl, ⟨true, rfl, fun hb => absurd hb (by decide)⟩,
        fun _ he => Except.noConfusion he, fun _ _ => ⟨"pdf", rfl, Or.inl rfl⟩⟩
    · subst hshape
      exact ⟨_, hrec, rfl, ⟨true, rfl, fun hb => absurd hb (by decide)⟩,
        fun _ he => Except.noConfusion he, fun _ _ => ⟨"image", rfl, Or.inr (Or.inl rfl)⟩⟩
    · subst hshape
      exact ⟨_, hrec, rfl, ⟨false, rfl, fun _ => ⟨"Unsupported file type", rfl⟩⟩,
        fun _ he => Except.noConfusion he, fun _ _ => ⟨"unknown", rfl, Or.inr (Or.inr rfl)⟩⟩

/-- Witness for C9 (amended): the failure record of a raising PDF carries
its filename and no `type` field. -/
theorem c9_witness :
    ∃ o : JObj, batchRecord ollamaOk "p" 200 badPdfFile = JVal.obj o
      ∧ lookupField o "filename" = some (JVal.s "broken.pdf")
      ∧ lookupField o "type" = none := by
  obtain ⟨o, h1, h2, _, h4, _⟩ := c9_record_shape ollamaOk "p" 200 badPdfFile
  exact ⟨o, h1, h2, h4 (.exc "Unable to get page count.") rfl⟩

lemma batchRecord_no_image (ollama : Ollama) (prompt : String) (dpi : Nat)
    (f : UploadFile) :
    ∃ o : JObj, batchRecord ollama prompt dpi f = JVal.obj o
      ∧ lookupField o "image" = none
      ∧ (∀ ps, lookupField o "pages" = some (JVal.arr ps) →
          ∀ q ∈ ps, ∃ pn t, q = JVal.obj [("page", JVal.n pn), ("text", JVal.s t)])
      ∧ (lookupField o "type" = some (JVal.s "image") →
          ∃ fn t, o = [("filename", JVal.s fn), ("type", JVal.s "image"),
            ("text", JVal.s t), ("success", JVal.b true)]) := by
  cases hbf : (batchFile ollama f prompt dpi).1 with
  | error e =>
    refine ⟨[("filename", JVal.s f.filename), ("success", JVal.b false),
             ("error", JVal.s (pyStr e))], by simp [batchRecord, hbf], rfl, ?_, ?_⟩
    · intro ps hps
      have h0 : lookupField [("filename", JVal.s f.filename), ("success", JVal.b false),
          ("error", JVal.s (pyStr e))] "pages" = none := rfl
      rw [h0] at hps
      exact Option.noConfusion hps
    · intro himg
      have h0 : lookupField [("filename", JVal.s f.filename), ("success", JVal.b false),
          ("error", JVal.s (pyStr e))] "type" = none := rfl
      rw [h0] at himg
      exact Option.noConfusion himg
  | ok r =>
    have hrec : batchRecord ollama prompt dpi f = JVal.obj r := by
      simp [batchRecord, hbf]
    rcases batchFile_ok_shape ollama f prompt dpi r hbf with
      ⟨pages, n, hshape, hpg⟩ | ⟨t, hshape⟩ | hshape
    · subst hshape
      refine ⟨_, hrec, rfl, ?_, ?_⟩
      · intro ps hps
        have h0 : lookupField [("filename", JVal.s f.filename), ("type", JVal.s "pdf"),
            ("total_pages", JVal.n n), ("pages", JVal.arr pages),
            ("success", JVal.b true)] "pages" = some (JVal.arr pages) := rfl
        rw [h0] at hps
        injection hps with hps
        injection hps with hps
        subst hps
        exact hpg
      · intro himg
        have h0 : lookupField [("filename", JVal.s f.filename), ("type", JVal.s "pdf"),
            ("total_pages", JVal.n n), ("pages", JVal.arr pages),
            ("success", JVal.b true)] "type" = some (JVal.s "pdf") := rfl
        rw [h0] at himg
        injection himg with himg
        injection himg with himg
        exact absurd himg (by decide)
    · subst hshape
      refine ⟨_, hrec, rfl, ?_, fun _ => ⟨f.filename, t, rfl⟩⟩
      intro ps hps
      have h0 : lookupField [("filename", JVal.s f.filename), ("type", JVal.s "image"),
          ("text", JVal.s t), ("success", JVal.b true)] "pages" = none := rfl
      rw [h0] at hps
      exact Option.noConfusion hps
    · subst hshape
      refine ⟨_, hrec, rfl, ?_, ?_⟩
      · intro ps hps
        have h0 : lookupField [("filename", JVal.s f.filename), ("type", JVal.s "unknown"),
            ("success", JVal.b false), ("error", JVal.s "Unsupported file type")]
            "pages" = none := rfl
        rw [h0] at hps
        exact Option.noConfusion hps
      · intro himg
        have h0 : lookupField [("filename", JVal.s f.filename), ("type", JVal.s "unknown"),
            ("success", JVal.b false), ("error", JVal.s "Unsupported file type")]
            "type" = some (JVal.s "unknown") := rfl
        rw [h0] at himg
        injection himg with himg
        injection himg with himg
        exact absurd himg (by decide)

/-- C10: no record in a `/ocr/batch` response ever carries a preview: no
record has an `image` field, the page entries of successful PDF records
carry only `page` and `text`, and successful image records carry exactly
filename, type, text and success. -/
theorem c10_batch_no_preview (ollama : Ollama) (files : List UploadFile)
    (prompt : String) (dpi : Nat) :
    ∃ rs : List JVal,
      ocr_batch ollama files prompt dpi = [("results", JVal.arr rs)]
      ∧ ∀ r ∈ rs, ∃ o : JObj, r = JVal.obj o
          ∧ lookupField o "image" = none
          ∧ (∀ ps, lookupField o "pages" = some (JVal.arr ps) →
              ∀ q ∈ ps, ∃ pn t, q = JVal.obj [("page", JVal.n pn), ("text", JVal.s t)])
          ∧ (lookupField o "type" = some (JVal.s "image") →
              ∃ fn t, o = [("filename", JVal.s fn), ("type", JVal.s "image"),
                ("text", JVal.s t), ("success", JVal.b true)]) := by
  refine ⟨files.map (batchRecord ollama prompt dpi), by simp [ocr_batch, batchLoop_fst], ?_⟩
  intro r hr
  rw [List.mem_map] at hr
  obtain ⟨f, _, hf⟩ := hr
  subst hf
  exact batchRecord_no_image ollama prompt dpi f

/-- Witness for C10: the successful image record for `imgFile` has no
`image` field. -/
theorem c10_witness :
    ∃ o : JObj, batchRecord ollamaOk "p" 200 imgFile = JVal.obj o
      ∧ lookupField o "image" = none := by
  obtain ⟨rs, h1, h2⟩ := c10_batch_no_preview ollamaOk [imgFile] "p" 200
  have h3 : ocr_batch ollamaOk [imgFile] "p" 200
      = [("results", JVal.arr [batchRecord ollamaOk "p" 200 imgFile])] := by
    simp [ocr_batch, batchLoop_fst]
  rw [h1] at h3
  injection h3 with h3 _
  injection h3 with _ h3
  injection h3 with h3
  obtain ⟨o, ho1, ho2, _, _⟩ := h2 (batchRecord ollamaOk "p" 200 imgFile)
    (by rw [h3]; exact List.mem_singleton.mpr rfl)
  exact ⟨o, ho1, ho2⟩

end OcrSpec
